import Mathlib

/-!
# Verification of the MCP Weather Server core

Shallow embedding of the request-dispatch and response-envelope logic of the
MCP weather server (`src/utils/mcpUtils.js`, `src/controllers/mcpController.js`,
`src/config/endpoints.js` alias `src/index.js` registry, `src/utils/validation.js`),
together with proofs settling the frozen claims about its specification.

JavaScript values are modelled by `JValue` (numbers as rationals).  Objects are
association lists where a later binding shadows an earlier one, so the JS spread
`{...a, ...b}` is list append and property lookup takes the last binding.
Impure ingredients are passed explicitly: the current timestamp is a `String`
argument, and the axios calls (upstream fetch, geocoding) are oracle arguments
of type `Except`; the handler result additionally records which external calls
were made, so that "no upstream call is attempted" is expressible.
-/

/-- JavaScript runtime value (numbers modelled as rationals; `undefined` is a
separate value, as in JS, distinct from `null`). -/
inductive JValue where
  | null
  | undefined
  | bool (b : Bool)
  | num (q : Rat)
  | str (s : String)
  | arr (elems : List JValue)
  | obj (fields : List (String × JValue))
deriving Repr

/-- JS object: association list of fields; a later binding shadows an earlier
one (so JS spread syntax is modelled by `List.append`). -/
abbrev JObj := List (String × JValue)

/-- Property lookup in a `JObj`: the *last* binding of the key wins, matching
the semantics of `{...a, ...b}` object spread. -/
def jsGetLast : JObj → String → Option JValue
  | [], _ => none
  | (k', v) :: rest, k =>
    match jsGetLast rest k with
    | some w => some w
    | none => if k' = k then some v else none

theorem jsGetLast_append (o₁ o₂ : JObj) (k : String) :
    jsGetLast (o₁ ++ o₂) k =
      match jsGetLast o₂ k with
      | some w => some w
      | none => jsGetLast o₁ k := by
  induction o₁ with
  | nil =>
    simp only [List.nil_append, jsGetLast]
    cases h : jsGetLast o₂ k <;> simp
  | cons p rest ih =>
    obtain ⟨k', v⟩ := p
    simp only [List.cons_append, jsGetLast, List.append_eq]
    rw [ih]
    cases h : jsGetLast o₂ k <;> cases h' : jsGetLast rest k <;> simp [h, h']

/-- JS truthiness (`if (x)`): `undefined`, `null`, `false`, `0` and `""` are
falsy, everything else modelled here is truthy. -/
def truthy : JValue → Bool
  | .null => false
  | .undefined => false
  | .bool b => b
  | .num q => decide (q ≠ 0)
  | .str s => decide (s ≠ "")
  | .arr _ => true
  | .obj _ => true

/-- JS property access `v.k`: throws a `TypeError` (modelled as `Except.error`)
on `null`/`undefined`, yields `undefined` for absent properties and for
non-object primitives. -/
def jsAccess : JValue → String → Except Unit JValue
  | .null, _ => .error ()
  | .undefined, _ => .error ()
  | .obj fields, k => .ok ((jsGetLast fields k).getD .undefined)
  | _, _ => .ok .undefined

mutual
/-- `JSON.stringify`, used by the success builder only for
`output.metadata.dataSize`.  String escaping and JS float formatting are not
reproduced (numbers print as rationals); no claim depends on the rendering. -/
def jsonStringify : JValue → String
  | .null => "null"
  | .undefined => "null"
  | .bool b => if b then "true" else "false"
  | .num q => toString q
  | .str s => "\"" ++ s ++ "\""
  | .arr elems => "[" ++ jsonStringifyList elems ++ "]"
  | .obj fields => "\x7b" ++ jsonStringifyObj fields ++ "\x7d"

def jsonStringifyList : List JValue → String
  | [] => ""
  | [v] => jsonStringify v
  | v :: rest => jsonStringify v ++ "," ++ jsonStringifyList rest

def jsonStringifyObj : List (String × JValue) → String
  | [] => ""
  | [(k, v)] => "\"" ++ k ++ "\":" ++ jsonStringify v
  | (k, v) :: rest => "\"" ++ k ++ "\":" ++ jsonStringify v ++ "," ++ jsonStringifyObj rest
end

/-- `output` field of a tool-call record (`src/utils/mcpUtils.js`): either
`{success: true, data, metadata: {endpoint, timestamp, dataSize}}` or
`{success: false, error, metadata: {endpoint, timestamp}}`. -/
inductive ToolOutput where
  | success (data : JValue) (endpoint : String) (timestamp : String) (dataSize : Nat)
  | failure (error : String) (endpoint : String) (timestamp : String)
deriving Repr

/-- A tool-call record appended to the context's `tools` array.  `duration` is
present (`0`) on the success builder and absent on the failure builder. -/
structure ToolCall where
  name : String
  input : JObj
  output : ToolOutput
  timestamp : String
  duration : Option Nat
deriving Repr

/-- The MCP context envelope `{input, tools, metadata, ...}`.  `tools` is
`none` when the caller omitted the field (JS `undefined`), mirroring the
`originalContext.tools || []` handling in the builders.  `id` and `method` are
the extra fields the JSON-RPC path reads off the validated body (Joi validation
runs with `allowUnknown`, so they survive validation). -/
structure MCPContext where
  input : JObj
  tools : Option (List ToolCall)
  metadata : JObj
  id : JValue := .undefined
  method : JValue := .undefined
deriving Repr

/-- `originalContext.tools?.length || 0` -/
def jsToolsLen (tools : Option (List ToolCall)) : Nat :=
  match tools with
  | some l => l.length
  | none => 0

/-- `buildMCPResponse` (`src/utils/mcpUtils.js` lines 10–51).  `now` stands for
`new Date().toISOString()`.  The record's `input` is
`{endpoint: endpointName, ...originalContext.input}` (spread after the literal,
so caller fields shadow `endpoint`), and the new metadata is the old metadata
spread-extended with `last_updated`, `tool_count`, `last_endpoint`. -/
def buildMCPResponse (originalContext : MCPContext) (fetchedData : JValue)
    (endpointName : String) (now : String) : MCPContext :=
  let toolCall : ToolCall :=
    { name := "fetch_endpoint"
      input := ("endpoint", JValue.str endpointName) :: originalContext.input
      output := ToolOutput.success fetchedData endpointName now
        (jsonStringify fetchedData).length
      timestamp := now
      duration := some 0 }
  { originalContext with
    tools := some ((originalContext.tools.getD []) ++ [toolCall])
    metadata := originalContext.metadata ++
      [("last_updated", JValue.str now),
       ("tool_count", JValue.num (jsToolsLen originalContext.tools + 1)),
       ("last_endpoint", JValue.str endpointName)] }

/-- `buildMCPErrorResponse` (`src/utils/mcpUtils.js` lines 60–94).  Note: the
metadata update sets `last_updated`, `last_error`, `last_endpoint` but — unlike
the success builder — does **not** touch `tool_count`. -/
def buildMCPErrorResponse (originalContext : MCPContext) (errorMessage : String)
    (endpointName : String) (now : String) : MCPContext :=
  let toolCall : ToolCall :=
    { name := "fetch_endpoint"
      input := ("endpoint", JValue.str endpointName) :: originalContext.input
      output := ToolOutput.failure errorMessage endpointName now
      timestamp := now
      duration := none }
  { originalContext with
    tools := some ((originalContext.tools.getD []) ++ [toolCall])
    metadata := originalContext.metadata ++
      [("last_updated", JValue.str now),
       ("last_error", JValue.str errorMessage),
       ("last_endpoint", JValue.str endpointName)] }

/-- Property access through an already-null-checked receiver (also models
optional chaining `v?.k`): nullish receivers and non-objects yield
`undefined`. -/
def jsProp (v : JValue) (k : String) : JValue :=
  match v with
  | .obj fields => (jsGetLast fields k).getD .undefined
  | _ => .undefined

/-- Fields of a JS value when spread into an object literal (`{...v, ...}`);
non-objects contribute nothing (string spreading of indexed characters is not
modelled — no caller spreads a string). -/
def jsObjFields : JValue → JObj
  | .obj fields => fields
  | _ => []

/-- Whether a value is `null` or `undefined` (property access on it throws). -/
def jsIsNullish : JValue → Bool
  | .null => true
  | .undefined => true
  | _ => false

/-- Indexing `v[i]`: throws on nullish `v`, yields the element (or
`undefined`) on arrays, `undefined` on primitives. -/
def jsIndex : JValue → Nat → Except Unit JValue
  | .null, _ => .error ()
  | .undefined, _ => .error ()
  | .arr elems, i => .ok ((elems.get? i).getD .undefined)
  | _, _ => .ok .undefined

/-- Rendering of a value inside a template literal.  Number formatting follows
the rational representation rather than JS float printing, and arrays/objects
are rendered crudely; the rendered strings never decide a claim. -/
def jsDisplay : JValue → String
  | .str s => s
  | .num q => toString q
  | .null => "null"
  | .undefined => "undefined"
  | .bool b => if b then "true" else "false"
  | .arr _ => ""
  | .obj _ => "[object Object]"

/-- The weather-forecast transformer of the `getWeather` endpoint
(`src/config/endpoints.js`, `transformWeatherData`).  Property access on a
nullish payload throws (surfacing as `Except.error`), exactly as in JS. -/
def transformWeatherData (data : JValue) : Except Unit JValue :=
  if jsIsNullish data then .error () else
  let cw := jsProp data "current_weather"
  let dl := jsProp data "daily"
  .ok (.obj
    [("location", .obj
        [("latitude", jsProp data "latitude"),
         ("longitude", jsProp data "longitude"),
         ("timezone", jsProp data "timezone")]),
     ("current",
       if truthy cw then
         .obj [("temperature", jsProp cw "temperature"),
               ("windspeed", jsProp cw "windspeed"),
               ("winddirection", jsProp cw "winddirection"),
               ("weathercode", jsProp cw "weathercode"),
               ("time", jsProp cw "time")]
       else .null),
     ("forecast",
       if truthy dl then
         .obj [("dates", jsProp dl "time"),
               ("temperatures_max", jsProp dl "temperature_2m_max"),
               ("temperatures_min", jsProp dl "temperature_2m_min"),
               ("weather_codes", jsProp dl "weathercode")]
       else .null)])

/-- The `getCurrentWeather` transformer (`src/config/endpoints.js`): like the
forecast transform but without the `forecast` field. -/
def transformCurrentWeather (data : JValue) : Except Unit JValue :=
  if jsIsNullish data then .error () else
  let cw := jsProp data "current_weather"
  .ok (.obj
    [("location", .obj
        [("latitude", jsProp data "latitude"),
         ("longitude", jsProp data "longitude"),
         ("timezone", jsProp data "timezone")]),
     ("current",
       if truthy cw then
         .obj [("temperature", jsProp cw "temperature"),
               ("windspeed", jsProp cw "windspeed"),
               ("winddirection", jsProp cw "winddirection"),
               ("weathercode", jsProp cw "weathercode"),
               ("time", jsProp cw "time")]
       else .null)])

/-- One user record of the `getUsers` transformer:
`{id, name, email, city: user.address.city}` (access on a missing `address`
throws). -/
def transformUser (u : JValue) : Except Unit JValue := do
  if jsIsNullish u then throw () else
  let address := jsProp u "address"
  if jsIsNullish address then throw () else
  pure (.obj [("id", jsProp u "id"), ("name", jsProp u "name"),
              ("email", jsProp u "email"), ("city", jsProp address "city")])

/-- The `getUsers` transformer: `data.map(user => ...)`; calling `.map` on a
non-array throws. -/
def transformUsers (data : JValue) : Except Unit JValue :=
  match data with
  | .arr elems => do pure (.arr (← elems.mapM transformUser))
  | _ => .error ()

/-- An entry of the Endpoint Registry (`src/config/endpoints.js`):
`{url, defaultParams?, transformer?}`.  A missing `defaultParams` spreads as
the empty object, so it is modelled as `[]`. -/
structure Endpoint where
  url : String
  defaultParams : JObj
  transformer : Option (JValue → Except Unit JValue)

/-- `Object.keys(endpoints)` for the registry below. -/
def endpointKeys : List String :=
  ["getWeather", "getCurrentWeather", "getUsers", "getPosts"]

/-- The Endpoint Registry (`src/config/endpoints.js` default export). -/
def endpoints : String → Option Endpoint := fun name =>
  if name = "getWeather" then
    some { url := "https://api.open-meteo.com/v1/forecast"
           defaultParams :=
             [("current_weather", .bool true),
              ("daily", .str "temperature_2m_max,temperature_2m_min,weathercode")]
           transformer := some transformWeatherData }
  else if name = "getCurrentWeather" then
    some { url := "https://api.open-meteo.com/v1/forecast"
           defaultParams := [("current_weather", .bool true)]
           transformer := some transformCurrentWeather }
  else if name = "getUsers" then
    some { url := "https://jsonplaceholder.typicode.com/users"
           defaultParams := []
           transformer := some transformUsers }
  else if name = "getPosts" then
    some { url := "https://jsonplaceholder.typicode.com/posts"
           defaultParams := []
           transformer := none }
  else none

/-- The Parameter Merger (`src/controllers/mcpController.js` lines 219–222):
`{...endpointConfig.defaultParams, ...queryParams}` — in the last-binding-wins
object model, a shallow merge is plain list append, caller bindings last. -/
def mergeParams (defaultParams callerParams : JObj) : JObj :=
  defaultParams ++ callerParams

/-- An axios rejection: `code` (`'ECONNABORTED'` on timeout), the optional
upstream HTTP `response` (status, statusText), and `message`. -/
structure JsError where
  code : Option String
  response : Option (Nat × String)
  message : String

/-- First geocoding result (`geoResponse.data.results[0]`), as consumed by the
controller: `latitude`, `longitude`, `name`, `country`. -/
structure GeoResult where
  latitude : JValue
  longitude : JValue
  name : String
  country : String

/-- `details` payload of a legacy error body: either the Joi message list or a
single string. -/
inductive ErrDetails where
  | messages (msgs : List String)
  | message (s : String)
deriving Repr

/-- A JSON-RPC 2.0 reply: `{jsonrpc:"2.0", id, result}` or
`{jsonrpc:"2.0", id, error: {code, message, data}}`. -/
inductive RpcReply where
  | result (id : JValue) (result : JValue)
  | rpcError (id : JValue) (code : Int) (message : String) (data : JValue)
deriving Repr

/-- Body of an HTTP response sent by the controller. -/
inductive ResponseBody where
  | ctx (c : MCPContext)
  | err (error : String) (details : Option ErrDetails)
      (availableEndpoints : Option (List String))
  | rpc (r : RpcReply)
deriving Repr

structure HttpResponse where
  status : Nat
  body : ResponseBody
deriving Repr

/-- Outcome of one invocation of the Express handler: either an HTTP response,
or an uncaught exception escaping the handler (no HTTP response is written). -/
inductive HandlerResult where
  | response (r : HttpResponse)
  | crash (message : String)
deriving Repr

/-- Handler outcome instrumented with the externally observable calls: whether
the geocoding service was contacted, and the query parameters of the upstream
API call if one was issued. -/
structure Traced where
  result : HandlerResult
  geocodeCalled : Bool
  upstreamParams : Option JObj
deriving Repr

/-- Result of `validateMCPRequest(req.body)` (`src/utils/validation.js`):
either Joi error messages, or the validated context value. -/
inductive ReqValidation where
  | invalid (messages : List String)
  | valid (ctx : MCPContext)

/-- `mcpContext.metadata?.format === 'jsonrpc'`. -/
def isJsonRpcCtx (ctx : MCPContext) : Bool :=
  match jsGetLast ctx.metadata "format" with
  | some (JValue.str s) => s = "jsonrpc"
  | _ => false

/-- The message of the exception thrown *inside the catch block* of
`handleMCPRequest` (`src/controllers/mcpController.js`): `mcpContext` is
declared with `const` inside the `try` block (line 32) and is therefore not in
scope in the `catch` block, whose line 307
(`const isJsonRpc = mcpContext?.metadata?.format === 'jsonrpc';`) throws a
`ReferenceError` before any of the 408/502/500 (or JSON-RPC −32001/−32002)
mappings below it can run.  The rethrown error escapes the async handler, so
no HTTP response is produced. -/
def catchCrashMessage : String := "ReferenceError: mcpContext is not defined"

/-- The `initialize` result (`src/controllers/mcpController.js` lines 47–66);
`npmVersion` stands for `process.env.npm_package_version`. -/
def initializeResult (npmVersion : Option String) : JValue :=
  .obj [("protocolVersion", .str "2024-11-05"),
        ("capabilities", .obj
          [("tools", .obj [("listChanged", .bool true)]),
           ("resources", .obj [("subscribe", .bool false), ("listChanged", .bool false)])]),
        ("serverInfo", .obj
          [("name", .str "MCP Weather Server"),
           ("version", .str (npmVersion.getD "1.0.0"))])]

/-- The fixed `get_weather` tool descriptor returned by `tools/list`. -/
def getWeatherToolDescriptor : JValue :=
  .obj [("name", .str "get_weather"),
        ("description", .str "Get current weather information for a location"),
        ("inputSchema", .obj
          [("type", .str "object"),
           ("properties", .obj
             [("location", .obj [("type", .str "string"),
                ("description", .str "Location name (e.g., \"London,UK\" or \"New York,US\")")]),
              ("latitude", .obj [("type", .str "number"),
                ("description", .str "Latitude coordinate")]),
              ("longitude", .obj [("type", .str "number"),
                ("description", .str "Longitude coordinate")])]),
           ("required", .arr [.str "location"])])]

/-- The `tools/list` result (`src/controllers/mcpController.js` lines 71–102). -/
def toolsListResult : JValue := .obj [("tools", .arr [getWeatherToolDescriptor])]

/-- `resolveEndpoint`: the controller's
`const { endpointName } = mcpContext.input; !endpointName || !endpoints[endpointName]`
test.  A missing, non-string, empty (falsy) or unregistered name resolves to
`none`. -/
def resolveEndpoint (ctx : MCPContext) : Option (String × Endpoint) :=
  match (jsGetLast ctx.input "endpointName").getD .undefined with
  | .str s => if s = "" then none else (endpoints s).map (fun cfg => (s, cfg))
  | _ => none

/-- The JSON-RPC success response shaping
(`src/controllers/mcpController.js` lines 244–288): builds the weather text
from `transformedData` and wraps it in `{content: [{type:'text', text}]}`.
Property accesses throw on nullish receivers, as in the source. -/
def rpcWeatherReply (ctx : MCPContext) (transformedData : JValue) :
    Except Unit RpcReply := do
  let qp := (jsGetLast ctx.input "queryParams").getD .undefined
  let lnV := jsProp qp "location_name"
  let locV := jsProp qp "location"
  let locationName :=
    jsDisplay (if truthy lnV then lnV else if truthy locV then locV
               else .str "Unknown Location")
  if jsIsNullish transformedData then throw () else
  let current := jsProp transformedData "current"
  let location := jsProp transformedData "location"
  let head := "🌤️ **Weather for " ++ locationName ++ "**\n\n"
  let currentPart ←
    if truthy current then
      if jsIsNullish location then throw () else
      pure ("🌡️ **Temperature:** " ++ jsDisplay (jsProp current "temperature") ++ "°C\n"
        ++ "💨 **Wind:** " ++ jsDisplay (jsProp current "windspeed") ++ " km/h, "
        ++ jsDisplay (jsProp current "winddirection") ++ "°\n"
        ++ "⏰ **Time:** " ++ jsDisplay (jsProp current "time") ++ "\n"
        ++ "📍 **Coordinates:** " ++ jsDisplay (jsProp location "latitude") ++ "°, "
        ++ jsDisplay (jsProp location "longitude") ++ "°\n"
        ++ "🕐 **Timezone:** " ++ jsDisplay (jsProp location "timezone") ++ "\n")
    else
      pure "❌ No current weather data available\n"
  let forecastV := jsProp transformedData "forecast"
  let forecastPart ←
    if truthy forecastV then do
      let datesV := jsProp forecastV "dates"
      let n := match datesV with
        | .arr elems => min 3 elems.length
        | .str s => min 3 s.length
        | _ => 0
      let lines ← (List.range n).mapM (fun i => do
        let date ← jsIndex datesV i
        let maxT ← jsIndex (jsProp forecastV "temperatures_max") i
        let minT ← jsIndex (jsProp forecastV "temperatures_min") i
        pure ("• " ++ jsDisplay date ++ ": " ++ jsDisplay minT ++ "°C - "
          ++ jsDisplay maxT ++ "°C\n"))
      pure ("\n📅 **Forecast:**\n" ++ String.join lines)
    else
      pure ""
  pure (RpcReply.result ctx.id (.obj
    [("content", .arr [.obj [("type", .str "text"),
                             ("text", .str (head ++ currentPart ++ forecastPart))]])]))

/-- The shared tail of `handleMCPRequest`
(`src/controllers/mcpController.js` lines 192–295 and the catch block):
endpoint resolution, parameter merging, the upstream call, transformation and
response shaping for both formats.  Any exception reaching the catch block
(axios rejection, transformer throw, response shaping throw) crashes the
handler with a `ReferenceError` — see `catchCrashMessage`. -/
def dispatchCore (ctx : MCPContext) (isRpc : Bool) (geoCalled : Bool)
    (upstream : Except JsError JValue) (now : String) : Traced :=
  match resolveEndpoint ctx with
  | none =>
    if isRpc then
      ⟨.response ⟨200, .rpc (.rpcError ctx.id (-32602) "Invalid or missing endpoint"
        (.obj [("availableEndpoints", .arr (endpointKeys.map JValue.str))]))⟩,
       geoCalled, none⟩
    else
      ⟨.response ⟨400, .err "Invalid or missing endpointName" none (some endpointKeys)⟩,
       geoCalled, none⟩
  | some (name, cfg) =>
    let merged := mergeParams cfg.defaultParams
      (jsObjFields ((jsGetLast ctx.input "queryParams").getD .undefined))
    match upstream with
    | .error _ => ⟨.crash catchCrashMessage, geoCalled, some merged⟩
    | .ok data =>
      match (match cfg.transformer with
             | some f => f data
             | none => .ok data : Except Unit JValue) with
      | .error _ => ⟨.crash catchCrashMessage, geoCalled, some merged⟩
      | .ok transformed =>
        if isRpc then
          match rpcWeatherReply ctx transformed with
          | .error _ => ⟨.crash catchCrashMessage, geoCalled, some merged⟩
          | .ok reply => ⟨.response ⟨200, .rpc reply⟩, geoCalled, some merged⟩
        else
          ⟨.response ⟨200, .ctx (buildMCPResponse ctx transformed name now)⟩,
           geoCalled, some merged⟩

/-- The `tools/call` arm of the JSON-RPC method switch
(`src/controllers/mcpController.js` lines 106–173): the Geocoding Pre-Step is
taken iff `toolArgs.location` is truthy and both `toolArgs.latitude` and
`toolArgs.longitude` are falsy.  `geo` is the geocoding oracle
(`.ok none` = zero results, `.error` = transport failure).  Reading
`.location` off a nullish `toolArgs` throws a TypeError, which reaches the
catch block and crashes the handler (see `catchCrashMessage`). -/
def toolsCallStep (ctx : MCPContext) (geo : Except JsError (Option GeoResult))
    (upstream : Except JsError JValue) (now : String) : Traced :=
  let toolArgs := (jsGetLast ctx.input "queryParams").getD .undefined
  if jsIsNullish toolArgs then ⟨.crash catchCrashMessage, false, none⟩
  else if truthy (jsProp toolArgs "location")
      && !truthy (jsProp toolArgs "latitude")
      && !truthy (jsProp toolArgs "longitude") then
    match geo with
    | .error geoError =>
      ⟨.response ⟨200, .rpc (.rpcError ctx.id (-32603) "Geocoding service unavailable"
        (.obj [("details", .str geoError.message)]))⟩, true, none⟩
    | .ok none =>
      ⟨.response ⟨200, .rpc (.rpcError ctx.id (-32602)
        ("Location \"" ++ jsDisplay (jsProp toolArgs "location") ++ "\" not found")
        (.obj [("details", .str "Could not geocode the provided location")]))⟩,
       true, none⟩
    | .ok (some r) =>
      let newQp : JValue := .obj (jsObjFields toolArgs ++
        [("latitude", r.latitude), ("longitude", r.longitude),
         ("location_name", .str (r.name ++ ", " ++ r.country))])
      dispatchCore { ctx with input := ctx.input ++ [("queryParams", newQp)] }
        true true upstream now
  else
    dispatchCore ctx true false upstream now

/-- `switch (mcpContext.method)` comparison against a case label. -/
def methodIs (method : JValue) (s : String) : Bool :=
  match method with
  | .str m => m = s
  | _ => false

/-- `handleMCPRequest` (`src/controllers/mcpController.js` lines 16–357),
instrumented.  `v` is the Joi validation outcome, `geo` and `upstream` the
axios oracles, `npmVersion` is `process.env.npm_package_version` and `now` the
clock.  JSON-RPC replies are sent via `res.json(...)`, i.e. HTTP 200. -/
def handleMCPRequest (v : ReqValidation) (geo : Except JsError (Option GeoResult))
    (upstream : Except JsError JValue) (npmVersion : Option String) (now : String) :
    Traced :=
  match v with
  | .invalid msgs =>
    ⟨.response ⟨400, .err "Invalid MCP request" (some (.messages msgs)) none⟩,
     false, none⟩
  | .valid ctx =>
    if isJsonRpcCtx ctx then
      if methodIs ctx.method "initialize" then
        ⟨.response ⟨200, .rpc (.result ctx.id (initializeResult npmVersion))⟩,
         false, none⟩
      else if methodIs ctx.method "tools/list" then
        ⟨.response ⟨200, .rpc (.result ctx.id toolsListResult)⟩, false, none⟩
      else if methodIs ctx.method "tools/call" then
        toolsCallStep ctx geo upstream now
      else
        ⟨.response ⟨200, .rpc (.rpcError ctx.id (-32601)
          ("Method not found: " ++ jsDisplay ctx.method)
          (.obj [("availableMethods",
            .arr [.str "initialize", .str "tools/list", .str "tools/call"])]))⟩,
         false, none⟩
    else
      dispatchCore ctx false false upstream now

/-- Modelled from the spec: the Protocol Adapter's inbound normalization.  The
controller reads `metadata.format`, `method`, `id` and `input.queryParams` off
the validated body, but the code of this repository that recognizes a raw
JSON-RPC request and fills those fields is not under `src/` (the ad hoc test
clients post raw `{jsonrpc, id, method, params}` bodies).  Following §4.8/§6 of
the spec: a request is recognized as JSON-RPC by its `method` field / format
flag, `params.arguments` becomes `input.queryParams`, and the single
`get_weather` tool is served by the `getWeather` endpoint. -/
def adaptJsonRpcRequest (body : JValue) : MCPContext :=
  { input := [("endpointName", .str "getWeather"),
              ("queryParams", jsProp (jsProp body "params") "arguments")]
    tools := none
    metadata := [("format", .str "jsonrpc")]
    id := jsProp body "id"
    method := jsProp body "method" }

/-! ## Claim C1 — metadata consistency of the envelope builders -/

/-- C1 (amended): after `buildMCPResponse`, `metadata.tool_count` equals the
length of the returned `tools` array and `metadata.last_endpoint` is the
endpoint of the appended record; `buildMCPErrorResponse` updates
`last_endpoint` and `last_error` but leaves `tool_count` exactly as in the
caller's metadata, so the `tool_count` half of the invariant holds only for
the success builder. -/
theorem metadata_consistency_after_builders
    (ctx : MCPContext) (data : JValue) (msg ep now : String) :
    jsGetLast (buildMCPResponse ctx data ep now).metadata "tool_count"
      = some (JValue.num (((buildMCPResponse ctx data ep now).tools.getD []).length))
    ∧ jsGetLast (buildMCPResponse ctx data ep now).metadata "last_endpoint"
      = some (JValue.str ep)
    ∧ jsGetLast (buildMCPErrorResponse ctx msg ep now).metadata "last_endpoint"
      = some (JValue.str ep)
    ∧ jsGetLast (buildMCPErrorResponse ctx msg ep now).metadata "last_error"
      = some (JValue.str msg)
    ∧ jsGetLast (buildMCPErrorResponse ctx msg ep now).metadata "tool_count"
      = jsGetLast ctx.metadata "tool_count" := by
  cases h : ctx.tools <;>
    simp [buildMCPResponse, buildMCPErrorResponse, jsGetLast_append, jsGetLast,
      jsToolsLen, h]

/-- Context used to falsify the `tool_count` invariant on the failure builder:
an ordinary valid envelope with an empty history and empty metadata. -/
def ctx0 : MCPContext :=
  { input := [("endpointName", .str "getWeather")]
    tools := some []
    metadata := [] }

/-- C1 (counterexample): the claim's invariant fails for
`buildMCPErrorResponse`: starting from `ctx0` (no prior records, empty
metadata), the returned context has one tool record but *no* `tool_count`
metadata entry at all, so `tool_count` does not equal the length of `tools`. -/
theorem tool_count_invariant_fails_for_error_builder :
    ¬ (jsGetLast (buildMCPErrorResponse ctx0 "boom" "getWeather" "T0").metadata
          "tool_count"
        = some (JValue.num
            (((buildMCPErrorResponse ctx0 "boom" "getWeather" "T0").tools.getD
                []).length))
       ∧ jsGetLast (buildMCPErrorResponse ctx0 "boom" "getWeather" "T0").metadata
          "last_endpoint"
        = some (JValue.str "getWeather")) := by
  intro h
  have h1 := h.1
  rw [show jsGetLast (buildMCPErrorResponse ctx0 "boom" "getWeather" "T0").metadata
        "tool_count" = none from rfl] at h1
  exact Option.noConfusion h1

/-! ## Claim C2 — append-only history and metadata preservation -/

/-- C2: both envelope builders return a context whose `tools` has exactly one
new record appended after the caller's records (same order, unchanged), whose
`input` is the caller's, and whose metadata preserves every caller key other
than the server-maintained `last_updated`, `tool_count`, `last_endpoint`,
`last_error`.  (The builders are pure functions in this embedding, so the
caller's context value is never mutated — they construct a new context.) -/
theorem envelope_builder_append_only
    (ctx : MCPContext) (T : List ToolCall) (data : JValue) (msg ep now k : String)
    (hT : ctx.tools = some T)
    (hk1 : k ≠ "last_updated") (hk2 : k ≠ "tool_count")
    (hk3 : k ≠ "last_endpoint") (hk4 : k ≠ "last_error") :
    (((buildMCPResponse ctx data ep now).tools.getD []).length = T.length + 1
     ∧ ((buildMCPResponse ctx data ep now).tools.getD []).take T.length = T
     ∧ (buildMCPResponse ctx data ep now).input = ctx.input
     ∧ jsGetLast (buildMCPResponse ctx data ep now).metadata k
         = jsGetLast ctx.metadata k)
    ∧ (((buildMCPErrorResponse ctx msg ep now).tools.getD []).length = T.length + 1
     ∧ ((buildMCPErrorResponse ctx msg ep now).tools.getD []).take T.length = T
     ∧ (buildMCPErrorResponse ctx msg ep now).input = ctx.input
     ∧ jsGetLast (buildMCPErrorResponse ctx msg ep now).metadata k
         = jsGetLast ctx.metadata k) := by
  have e1 : ("last_updated" : String) ≠ k := Ne.symm hk1
  have e2 : ("tool_count" : String) ≠ k := Ne.symm hk2
  have e3 : ("last_endpoint" : String) ≠ k := Ne.symm hk3
  have e4 : ("last_error" : String) ≠ k := Ne.symm hk4
  refine ⟨⟨?_, ?_, rfl, ?_⟩, ?_, ?_, rfl, ?_⟩ <;>
    simp [buildMCPResponse, buildMCPErrorResponse, hT, jsGetLast_append, jsGetLast,
      List.take_left, e1, e2, e3, e4]

/-- Sample prior tool record for the C2 witness. -/
def sampleRecord : ToolCall :=
  { name := "fetch_endpoint"
    input := [("endpoint", .str "getPosts")]
    output := .failure "earlier failure" "getPosts" "T0"
    timestamp := "T0"
    duration := none }

/-- Concrete context for the C2 witness: one prior record, caller metadata with
a custom key. -/
def c2Ctx : MCPContext :=
  { input := [("endpointName", .str "getUsers")]
    tools := some [sampleRecord]
    metadata := [("caller_key", .str "keepme"), ("tool_count", .num 1)] }

/-- Witness for C2 at a concrete context: the history grows from 1 to 2
records, the prior record is preserved in place, and the caller's custom
metadata key survives both builders. -/
theorem envelope_builder_append_only_witness :
    ((buildMCPResponse c2Ctx (JValue.num 5) "getUsers" "T1").tools.getD []).length = 2
    ∧ ((buildMCPResponse c2Ctx (JValue.num 5) "getUsers" "T1").tools.getD
        []).take 1 = [sampleRecord]
    ∧ jsGetLast (buildMCPResponse c2Ctx (JValue.num 5) "getUsers" "T1").metadata
        "caller_key" = some (JValue.str "keepme")
    ∧ jsGetLast (buildMCPErrorResponse c2Ctx "late failure" "getUsers" "T1").metadata
        "caller_key" = some (JValue.str "keepme") := by
  have h := envelope_builder_append_only c2Ctx [sampleRecord] (JValue.num 5)
    "late failure" "getUsers" "T1" "caller_key" rfl
    (by decide) (by decide) (by decide) (by decide)
  refine ⟨h.1.1, ?_, ?_, ?_⟩
  · have := h.1.2.1
    simpa using this
  · rw [h.1.2.2.2]; rfl
  · rw [h.2.2.2.2]; rfl

/-! ## Claim C3 — shallow merge precedence -/

/-- C3: the Parameter Merger is a shallow merge — for a key in both objects the
caller's value wins (wholesale, whatever its shape: objects and arrays are
replaced, never deep-merged or concatenated), and keys present in only one
object are preserved. -/
theorem merge_precedence (defaultParams callerParams : JObj) (k : String) :
    (∀ v, jsGetLast callerParams k = some v →
       jsGetLast (mergeParams defaultParams callerParams) k = some v)
    ∧ (jsGetLast callerParams k = none →
       jsGetLast (mergeParams defaultParams callerParams) k
         = jsGetLast defaultParams k) := by
  constructor
  · intro v hv
    rw [mergeParams, jsGetLast_append, hv]
  · intro hv
    rw [mergeParams, jsGetLast_append, hv]

/-- Defaults for the C3 witness, including a nested object value. -/
def c3Defaults : JObj :=
  [("current_weather", .bool true),
   ("daily", .str "temperature_2m_max"),
   ("units", .obj [("temp", .str "celsius")])]

/-- Caller params for the C3 witness: overrides `current_weather` and `units`
(with a differently-shaped object) and adds `latitude`. -/
def c3Caller : JObj :=
  [("current_weather", .bool false),
   ("latitude", .num 7),
   ("units", .obj [("wind", .str "kmh")])]

/-- Witness for C3: caller wins on shared keys (including wholesale replacement
of the nested `units` object — no deep merge), defaults-only and caller-only
keys are preserved. -/
theorem merge_precedence_witness :
    jsGetLast (mergeParams c3Defaults c3Caller) "current_weather"
      = some (JValue.bool false)
    ∧ jsGetLast (mergeParams c3Defaults c3Caller) "daily"
      = some (JValue.str "temperature_2m_max")
    ∧ jsGetLast (mergeParams c3Defaults c3Caller) "latitude"
      = some (JValue.num 7)
    ∧ jsGetLast (mergeParams c3Defaults c3Caller) "units"
      = some (JValue.obj [("wind", .str "kmh")]) := by
  refine ⟨(merge_precedence c3Defaults c3Caller "current_weather").1 _ rfl, ?_,
    (merge_precedence c3Defaults c3Caller "latitude").1 _ rfl,
    (merge_precedence c3Defaults c3Caller "units").1 _ rfl⟩
  rw [(merge_precedence c3Defaults c3Caller "daily").2 rfl]; rfl

/-! ## Claim C6 — weather forecast transform -/

/-- Payload a transformer produces when it does not throw (`.null` sentinel
otherwise); convenience accessor for stating transform properties. -/
def transformOutput (t : JValue → Except Unit JValue) (raw : JValue) : JValue :=
  (t raw).toOption.getD .null

/-- The spec's concrete weather payload: New York with 22.5 °C current
weather. -/
def nycPayload : JValue :=
  .obj [("latitude", .num 40.7128), ("longitude", .num (-74.006)),
        ("timezone", .str "America/New_York"),
        ("current_weather", .obj
          [("temperature", .num 22.5), ("windspeed", .num 10),
           ("winddirection", .num 180), ("weathercode", .num 2),
           ("time", .str "2025-06-08T12:00")])]

/-- C6: on any object payload the weather transformer succeeds and returns
`{location: {latitude, longitude, timezone}, current, forecast}`, where
`current` is the five-field extract of `current_weather` when that field is
truthy and `null` otherwise, and `forecast` is the four-field extract of
`daily` when truthy and `null` otherwise; in particular, on the spec's New
York payload, `location.latitude` is `40.7128` and `current.temperature` is
`22.5`. -/
theorem weather_transform_correct (fields : JObj) :
    transformWeatherData (JValue.obj fields)
      = .ok (transformOutput transformWeatherData (JValue.obj fields))
    ∧ jsProp (jsProp (transformOutput transformWeatherData (JValue.obj fields))
        "location") "latitude" = jsProp (JValue.obj fields) "latitude"
    ∧ jsProp (jsProp (transformOutput transformWeatherData (JValue.obj fields))
        "location") "longitude" = jsProp (JValue.obj fields) "longitude"
    ∧ jsProp (jsProp (transformOutput transformWeatherData (JValue.obj fields))
        "location") "timezone" = jsProp (JValue.obj fields) "timezone"
    ∧ jsProp (transformOutput transformWeatherData (JValue.obj fields)) "current"
      = (if truthy (jsProp (JValue.obj fields) "current_weather") then
           JValue.obj
             [("temperature",
                jsProp (jsProp (JValue.obj fields) "current_weather") "temperature"),
              ("windspeed",
                jsProp (jsProp (JValue.obj fields) "current_weather") "windspeed"),
              ("winddirection",
                jsProp (jsProp (JValue.obj fields) "current_weather") "winddirection"),
              ("weathercode",
                jsProp (jsProp (JValue.obj fields) "current_weather") "weathercode"),
              ("time", jsProp (jsProp (JValue.obj fields) "current_weather") "time")]
         else JValue.null)
    ∧ jsProp (transformOutput transformWeatherData (JValue.obj fields)) "forecast"
      = (if truthy (jsProp (JValue.obj fields) "daily") then
           JValue.obj
             [("dates", jsProp (jsProp (JValue.obj fields) "daily") "time"),
              ("temperatures_max",
                jsProp (jsProp (JValue.obj fields) "daily") "temperature_2m_max"),
              ("temperatures_min",
                jsProp (jsProp (JValue.obj fields) "daily") "temperature_2m_min"),
              ("weather_codes",
                jsProp (jsProp (JValue.obj fields) "daily") "weathercode")]
         else JValue.null)
    ∧ jsProp (jsProp (transformOutput transformWeatherData nycPayload) "location")
        "latitude" = .num 40.7128
    ∧ jsProp (jsProp (transformOutput transformWeatherData nycPayload) "current")
        "temperature" = .num 22.5 :=
  ⟨rfl, rfl, rfl, rfl, rfl, rfl, rfl, rfl⟩

/-! ## Claim C7 — content of the appended record's `input` -/

/-- C7 (amended): the record appended by the success builder has
`input = {endpoint: endpointName, ...originalContext.input}` — the endpoint
name plus the *caller's original* `input` fields (`endpointName`,
`queryParams`, `authHeaders` as supplied), not the merged parameters. -/
theorem tool_record_input_is_raw_context_input
    (ctx : MCPContext) (data : JValue) (ep now : String) :
    ((buildMCPResponse ctx data ep now).tools.getD []).map ToolCall.input
      = (ctx.tools.getD []).map ToolCall.input
        ++ [("endpoint", JValue.str ep) :: ctx.input] := by
  simp [buildMCPResponse]

/-- Context for the C7 counterexample: a `getWeather` request supplying only
`latitude`. -/
def c7Ctx : MCPContext :=
  { input := [("endpointName", .str "getWeather"),
              ("queryParams", .obj [("latitude", .num 1)])]
    tools := some []
    metadata := [] }

/-- Raw upstream payload for the C7 counterexample. -/
def c7Raw : JValue := .obj [("latitude", .num 1)]

/-- What the registry's merged parameters are for the C7 dispatch. -/
def c7MergedParams : JObj :=
  mergeParams (((endpoints "getWeather").map Endpoint.defaultParams).getD [])
    [("latitude", JValue.num 1)]

/-- C7 (counterexample): in an actual successful `getWeather` dispatch the
merged parameters contain the registry default `current_weather: true`, but
the appended record's `input` does not — the record snapshots the caller's raw
context input, not the merged parameters. -/
theorem tool_record_input_not_merged_params :
    (handleMCPRequest (.valid c7Ctx) (.ok none) (.ok c7Raw) none "T").result
      = .response ⟨200, .ctx (buildMCPResponse c7Ctx
          (transformOutput transformWeatherData c7Raw) "getWeather" "T")⟩
    ∧ jsGetLast c7MergedParams "current_weather" = some (JValue.bool true)
    ∧ ((buildMCPResponse c7Ctx (transformOutput transformWeatherData c7Raw)
          "getWeather" "T").tools.getD []).map
        (fun r => jsGetLast r.input "current_weather") = [none] :=
  ⟨rfl, rfl, rfl⟩

/-! ## Claim C4 — legacy HTTP status mapping -/

/-- An axios timeout rejection (`err.code === 'ECONNABORTED'`). -/
def timeoutError : JsError :=
  { code := some "ECONNABORTED", response := none
    message := "timeout of 10000ms exceeded" }

/-- An axios rejection carrying an upstream HTTP error response. -/
def upstreamHttpError : JsError :=
  { code := none, response := some (500, "Internal Server Error")
    message := "Request failed with status code 500" }

/-- An axios rejection with neither a timeout code nor a response. -/
def networkError : JsError :=
  { code := none, response := none, message := "socket hang up" }

/-- A valid legacy-format `getWeather` request with explicit coordinates. -/
def legacyWeatherCtx : MCPContext :=
  { input := [("endpointName", .str "getWeather"),
              ("queryParams", .obj [("latitude", .num 1), ("longitude", .num 2)])]
    tools := some []
    metadata := [] }

/-- C4 (code bug): the 408/502/500 mapping spelled out at controller lines
339–356 is unreachable.  The first statement of the catch block that uses
`mcpContext` (line 307) reads a `const` that is scoped to the `try` block
(line 32), so every upstream failure raises a `ReferenceError` inside the
catch block and the handler produces no HTTP response at all — evaluated here
on a timeout, an upstream HTTP error and a plain network error. -/
theorem legacy_error_mapping_unreachable :
    (handleMCPRequest (.valid legacyWeatherCtx) (.ok none) (.error timeoutError)
        none "T").result = .crash catchCrashMessage
    ∧ (handleMCPRequest (.valid legacyWeatherCtx) (.ok none)
        (.error upstreamHttpError) none "T").result = .crash catchCrashMessage
    ∧ (handleMCPRequest (.valid legacyWeatherCtx) (.ok none) (.error networkError)
        none "T").result = .crash catchCrashMessage :=
  ⟨rfl, rfl, rfl⟩

/-! ## Claim C10 — legacy failures short-circuit without context mutation -/

/-- C10 (counterexample): not every failed legacy dispatch short-circuits with
a bare error body — an upstream timeout crashes the handler in the catch block
(see `catchCrashMessage`), so no `{error, details}` body of any status is
produced. -/
theorem legacy_failure_not_always_bare_error_body :
    ¬ ∃ (s : Nat) (e : String) (d : Option ErrDetails) (a : Option (List String)),
      (handleMCPRequest (.valid legacyWeatherCtx) (.ok none) (.error timeoutError)
          none "T").result = .response ⟨s, .err e d a⟩ := by
  rintro ⟨s, e, d, a, h⟩
  rw [show (handleMCPRequest (.valid legacyWeatherCtx) (.ok none)
      (.error timeoutError) none "T").result = .crash catchCrashMessage from rfl] at h
  exact HandlerResult.noConfusion h

/-- C10 (amended): on the legacy path, validation failures and unknown
endpoints short-circuit inside the try block with bare `{error, ...}` bodies
(no context, no tool record; `availableEndpoints` on the unknown-endpoint
400); upstream failures crash in the catch block before any body is written;
and the only context ever returned is built by `buildMCPResponse` — this
controller never invokes `buildMCPErrorResponse` (the embedding of
`src/controllers/mcpController.js` contains no reference to it). -/
theorem legacy_failures_short_circuit
    (ctx : MCPContext) (msgs : List String) (e : JsError)
    (geo : Except JsError (Option GeoResult)) (upstream : Except JsError JValue)
    (npmV : Option String) (now : String)
    (hleg : isJsonRpcCtx ctx = false) :
    handleMCPRequest (.invalid msgs) geo upstream npmV now
      = ⟨.response ⟨400, .err "Invalid MCP request" (some (.messages msgs)) none⟩,
         false, none⟩
    ∧ (resolveEndpoint ctx = none →
        handleMCPRequest (.valid ctx) geo upstream npmV now
          = ⟨.response ⟨400, .err "Invalid or missing endpointName" none
              (some endpointKeys)⟩, false, none⟩)
    ∧ (∀ name cfg, resolveEndpoint ctx = some (name, cfg) →
        (handleMCPRequest (.valid ctx) geo (.error e) npmV now).result
          = .crash catchCrashMessage)
    ∧ (∀ name cfg, resolveEndpoint ctx = some (name, cfg) →
        ∀ st c, (handleMCPRequest (.valid ctx) geo upstream npmV now).result
            = .response ⟨st, .ctx c⟩ →
          st = 200 ∧ ∃ t, c = buildMCPResponse ctx t name now) := by
  refine ⟨rfl, ?_, ?_, ?_⟩
  · intro hres
    simp [handleMCPRequest, hleg, dispatchCore, hres]
  · intro name cfg hres
    simp [handleMCPRequest, hleg, dispatchCore, hres]
  · intro name cfg hres st c h
    cases upstream with
    | error e' =>
      rw [show (handleMCPRequest (.valid ctx) geo (.error e') npmV now).result
          = .crash catchCrashMessage from by
        simp [handleMCPRequest, hleg, dispatchCore, hres]] at h
      exact absurd h (by simp)
    | ok data =>
      cases htr : (match cfg.transformer with
                   | some f => f data
                   | none => .ok data : Except Unit JValue) with
      | error u =>
        rw [show (handleMCPRequest (.valid ctx) geo (.ok data) npmV now).result
            = .crash catchCrashMessage from by
          simp [handleMCPRequest, hleg, dispatchCore, hres, htr]] at h
        exact absurd h (by simp)
      | ok t =>
        rw [show (handleMCPRequest (.valid ctx) geo (.ok data) npmV now).result
            = .response ⟨200, .ctx (buildMCPResponse ctx t name now)⟩ from by
          simp [handleMCPRequest, hleg, dispatchCore, hres, htr]] at h
        simp only [HandlerResult.response.injEq, HttpResponse.mk.injEq,
          ResponseBody.ctx.injEq] at h
        exact ⟨h.1.symm, t, h.2.symm⟩

/-- Legacy context with an unregistered endpoint name. -/
def unknownEpCtx : MCPContext :=
  { input := [("endpointName", .str "doesNotExist")]
    tools := some []
    metadata := [] }

/-- Witness for C10: a concrete unknown-endpoint request gets the bare 400
body, and a concrete `getWeather` timeout crashes the handler. -/
theorem legacy_failures_short_circuit_witness :
    handleMCPRequest (.valid unknownEpCtx) (.ok none) (.ok .null) none "T"
      = ⟨.response ⟨400, .err "Invalid or missing endpointName" none
          (some endpointKeys)⟩, false, none⟩
    ∧ (handleMCPRequest (.valid legacyWeatherCtx) (.ok none) (.error timeoutError)
        none "T").result = .crash catchCrashMessage := by
  refine ⟨(legacy_failures_short_circuit unknownEpCtx [] timeoutError (.ok none)
      (.ok .null) none "T" rfl).2.1 rfl, ?_⟩
  exact (legacy_failures_short_circuit legacyWeatherCtx [] timeoutError (.ok none)
      (.error timeoutError) none "T" rfl).2.2.1 "getWeather"
      ((endpoints "getWeather").getD
        { url := "", defaultParams := [], transformer := none }) rfl

/-! ## Claim C5 — unknown endpoint rejection -/

/-- C5: a request whose `endpointName` is missing, falsy or unregistered is
rejected without any upstream call (the verdict does not depend on the
upstream oracle and `upstreamParams` is `none`): the legacy path answers HTTP
400, the JSON-RPC `tools/call` path (here with explicit coordinates, so the
geocoding pre-step is skipped) answers the −32602 invalid-params error —
the 400-class kind of §7 — and both payloads enumerate all registered
endpoint names, including the four required ones. -/
theorem unknown_endpoint_rejection
    (ctx ctxR : MCPContext) (qp : JObj)
    (geo : Except JsError (Option GeoResult)) (upstream : Except JsError JValue)
    (npmV : Option String) (now : String)
    (h1 : isJsonRpcCtx ctx = false) (h2 : resolveEndpoint ctx = none)
    (h3 : isJsonRpcCtx ctxR = true) (h4 : ctxR.method = .str "tools/call")
    (h5 : jsGetLast ctxR.input "queryParams" = some (.obj qp))
    (h6 : truthy (jsProp (.obj qp) "latitude") = true)
    (h7 : resolveEndpoint ctxR = none) :
    handleMCPRequest (.valid ctx) geo upstream npmV now
      = ⟨.response ⟨400, .err "Invalid or missing endpointName" none
          (some endpointKeys)⟩, false, none⟩
    ∧ handleMCPRequest (.valid ctxR) geo upstream npmV now
      = ⟨.response ⟨200, .rpc (.rpcError ctxR.id (-32602) "Invalid or missing endpoint"
          (.obj [("availableEndpoints", .arr (endpointKeys.map JValue.str))]))⟩,
         false, none⟩
    ∧ "getWeather" ∈ endpointKeys ∧ "getCurrentWeather" ∈ endpointKeys
    ∧ "getUsers" ∈ endpointKeys ∧ "getPosts" ∈ endpointKeys := by
  refine ⟨?_, ?_, by decide, by decide, by decide, by decide⟩
  · simp [handleMCPRequest, h1, dispatchCore, h2]
  · simp [handleMCPRequest, h3, h4, methodIs, toolsCallStep, h5, jsIsNullish,
      h6, dispatchCore, h7]

/-- JSON-RPC `tools/call` context with explicit nonzero coordinates and an
unregistered endpoint name, for the C5 witness. -/
def unknownEpRpcCtx : MCPContext :=
  { input := [("endpointName", .str "doesNotExist")
    , ("queryParams", .obj [("latitude", .num 1), ("longitude", .num 2)])]
    tools := none
    metadata := [("format", .str "jsonrpc")]
    id := .num 3
    method := .str "tools/call" }

/-- Witness for C5 at concrete requests (`doesNotExist` endpoint on both
formats). -/
theorem unknown_endpoint_rejection_witness :
    handleMCPRequest (.valid unknownEpCtx) (.ok none) (.ok .null) none "T"
      = ⟨.response ⟨400, .err "Invalid or missing endpointName" none
          (some endpointKeys)⟩, false, none⟩
    ∧ handleMCPRequest (.valid unknownEpRpcCtx) (.ok none) (.ok .null) none "T"
      = ⟨.response ⟨200, .rpc (.rpcError (.num 3) (-32602) "Invalid or missing endpoint"
          (.obj [("availableEndpoints", .arr (endpointKeys.map JValue.str))]))⟩,
         false, none⟩ := by
  have h := unknown_endpoint_rejection unknownEpCtx unknownEpRpcCtx
    [("latitude", .num 1), ("longitude", .num 2)] (.ok none) (.ok .null) none "T"
    rfl rfl rfl rfl rfl (by decide) rfl
  exact ⟨h.1, h.2.1⟩

/-! ## Claim C8 — JSON-RPC initialize / tools/list round trip -/

/-- A raw JSON-RPC `initialize` request body. -/
def initBody (idv : JValue) : JValue :=
  .obj [("jsonrpc", .str "2.0"), ("id", idv), ("method", .str "initialize"),
        ("params", .obj [("protocolVersion", .str "2024-11-05")])]

/-- A raw JSON-RPC `tools/list` request body. -/
def toolsListBody (idv : JValue) : JValue :=
  .obj [("jsonrpc", .str "2.0"), ("id", idv), ("method", .str "tools/list")]

/-- C8: a JSON-RPC `initialize` request with `id: 7` is answered with HTTP
200, the echoed `id: 7` and a non-null `result.protocolVersion`; a
`tools/list` request (any `id`) is answered with HTTP 200 and a `result.tools`
array containing the `get_weather` descriptor.  Neither answer consults the
geocoding or upstream oracles. -/
theorem jsonrpc_initialize_and_tools_list
    (geo : Except JsError (Option GeoResult)) (upstream : Except JsError JValue)
    (npmV : Option String) (now : String) (idv : JValue) :
    handleMCPRequest (.valid (adaptJsonRpcRequest (initBody (.num 7)))) geo upstream
        npmV now
      = ⟨.response ⟨200, .rpc (.result (.num 7) (initializeResult npmV))⟩, false, none⟩
    ∧ jsProp (initializeResult npmV) "protocolVersion" = .str "2024-11-05"
    ∧ JValue.str "2024-11-05" ≠ JValue.null
    ∧ handleMCPRequest (.valid (adaptJsonRpcRequest (toolsListBody idv))) geo upstream
        npmV now
      = ⟨.response ⟨200, .rpc (.result idv toolsListResult)⟩, false, none⟩
    ∧ jsProp toolsListResult "tools" = .arr [getWeatherToolDescriptor]
    ∧ jsProp getWeatherToolDescriptor "name" = .str "get_weather" := by
  refine ⟨rfl, rfl, ?_, rfl, rfl, rfl⟩
  intro h
  exact JValue.noConfusion h

/-! ## Claim C9 — geocoding pre-step gating and error mapping -/

/-- The dispatch tail reports exactly the geocode flag it was handed: no
geocoding happens after the pre-step. -/
theorem dispatchCore_geocodeCalled (ctx : MCPContext) (isRpc geoCalled : Bool)
    (upstream : Except JsError JValue) (now : String) :
    (dispatchCore ctx isRpc geoCalled upstream now).geocodeCalled = geoCalled := by
  unfold dispatchCore
  repeat' split
  all_goals rfl

/-- Once the endpoint resolves, the dispatch tail always issues the upstream
call with the registry defaults merged under the context's (possibly
geocode-updated) query parameters — whether the call then succeeds, fails, or
the response shaping throws. -/
theorem dispatchCore_upstreamParams (ctx : MCPContext) (isRpc geoCalled : Bool)
    (upstream : Except JsError JValue) (now : String) (name : String)
    (cfg : Endpoint) (hres : resolveEndpoint ctx = some (name, cfg)) :
    (dispatchCore ctx isRpc geoCalled upstream now).upstreamParams
      = some (mergeParams cfg.defaultParams
          (jsObjFields ((jsGetLast ctx.input "queryParams").getD .undefined))) := by
  cases upstream with
  | error e => simp [dispatchCore, hres]
  | ok data =>
    cases htr : (match cfg.transformer with
                 | some f => f data
                 | none => .ok data : Except Unit JValue) with
    | error u => simp [dispatchCore, hres, htr]
    | ok t =>
      cases isRpc with
      | false => simp [dispatchCore, hres, htr]
      | true =>
        cases hr : rpcWeatherReply ctx t with
        | error u => simp [dispatchCore, hres, htr, hr]
        | ok reply => simp [dispatchCore, hres, htr, hr]

/-- Query parameters after a successful geocode: the caller's arguments with
the resolved coordinates and display name appended
(`{...toolArgs, latitude, longitude, location_name}`). -/
def geocodedParams (qp : JObj) (gr : GeoResult) : JObj :=
  qp ++ [("latitude", gr.latitude), ("longitude", gr.longitude),
         ("location_name", .str (gr.name ++ ", " ++ gr.country))]

/-- C9 (amended): the Geocoding Pre-Step is taken iff `arguments.location` is
truthy and both `arguments.latitude` and `arguments.longitude` are *falsy* —
JS truthiness, so the valid coordinate `0` counts as absent.  When skipped,
the outcome is independent of the geocoding oracle.  When taken: zero results
yield the −32602 invalid-params error, a transport failure yields −32603, and
on success the resolved `latitude`, `longitude` and `location_name` are
appended to the query parameters, which feed the upstream weather call
(visible in `upstreamParams` once the endpoint resolves). -/
theorem geocoding_gating
    (ctx : MCPContext) (qp : JObj) (upstream : Except JsError JValue)
    (npmV : Option String) (now : String) (gErr : JsError) (gr : GeoResult)
    (hrpc : isJsonRpcCtx ctx = true) (hm : ctx.method = .str "tools/call")
    (hqp : jsGetLast ctx.input "queryParams" = some (.obj qp)) :
    ((truthy (jsProp (.obj qp) "location") && !truthy (jsProp (.obj qp) "latitude")
        && !truthy (jsProp (.obj qp) "longitude")) = false →
      ∀ g₁ g₂ : Except JsError (Option GeoResult),
        handleMCPRequest (.valid ctx) g₁ upstream npmV now
          = handleMCPRequest (.valid ctx) g₂ upstream npmV now
        ∧ (handleMCPRequest (.valid ctx) g₁ upstream npmV now).geocodeCalled = false)
    ∧ ((truthy (jsProp (.obj qp) "location") && !truthy (jsProp (.obj qp) "latitude")
        && !truthy (jsProp (.obj qp) "longitude")) = true →
      handleMCPRequest (.valid ctx) (.error gErr) upstream npmV now
        = ⟨.response ⟨200, .rpc (.rpcError ctx.id (-32603)
            "Geocoding service unavailable"
            (.obj [("details", .str gErr.message)]))⟩, true, none⟩
      ∧ handleMCPRequest (.valid ctx) (.ok none) upstream npmV now
        = ⟨.response ⟨200, .rpc (.rpcError ctx.id (-32602)
            ("Location \"" ++ jsDisplay (jsProp (.obj qp) "location") ++ "\" not found")
            (.obj [("details", .str "Could not geocode the provided location")]))⟩,
           true, none⟩
      ∧ (handleMCPRequest (.valid ctx) (.ok (some gr)) upstream npmV now).geocodeCalled
          = true
      ∧ ∀ name cfg,
          resolveEndpoint { ctx with input := ctx.input ++
              [("queryParams", JValue.obj (geocodedParams qp gr))] } = some (name, cfg) →
          (handleMCPRequest (.valid ctx) (.ok (some gr)) upstream npmV
              now).upstreamParams
            = some (mergeParams cfg.defaultParams (geocodedParams qp gr))
          ∧ jsGetLast (mergeParams cfg.defaultParams (geocodedParams qp gr)) "latitude"
              = some gr.latitude
          ∧ jsGetLast (mergeParams cfg.defaultParams (geocodedParams qp gr)) "longitude"
              = some gr.longitude
          ∧ jsGetLast (mergeParams cfg.defaultParams (geocodedParams qp gr))
              "location_name" = some (JValue.str (gr.name ++ ", " ++ gr.country))) := by
  constructor
  · intro hng g₁ g₂
    constructor <;>
      simp [handleMCPRequest, hrpc, hm, methodIs, toolsCallStep, hqp, jsIsNullish,
        hng, dispatchCore_geocodeCalled]
  · intro hng
    have hstep : handleMCPRequest (.valid ctx) (.ok (some gr)) upstream npmV now
        = dispatchCore { ctx with input := ctx.input ++
            [("queryParams", JValue.obj (geocodedParams qp gr))] } true true
            upstream now := by
      simp [handleMCPRequest, hrpc, hm, methodIs, toolsCallStep, hqp, jsIsNullish,
        hng, jsObjFields, geocodedParams]
    refine ⟨?_, ?_, ?_, ?_⟩
    · simp [handleMCPRequest, hrpc, hm, methodIs, toolsCallStep, hqp, jsIsNullish, hng]
    · simp [handleMCPRequest, hrpc, hm, methodIs, toolsCallStep, hqp, jsIsNullish, hng]
    · rw [hstep, dispatchCore_geocodeCalled]
    · intro name cfg hres
      have hq : (jsGetLast ({ ctx with input := ctx.input ++
          [("queryParams", JValue.obj (geocodedParams qp gr))] } :
            MCPContext).input "queryParams").getD .undefined
          = JValue.obj (geocodedParams qp gr) := by
        show (jsGetLast (ctx.input ++ [("queryParams",
          JValue.obj (geocodedParams qp gr))]) "queryParams").getD .undefined = _
        rw [jsGetLast_append]
        rfl
      refine ⟨?_, ?_, ?_, ?_⟩
      · rw [hstep, dispatchCore_upstreamParams _ _ _ _ _ name cfg hres, hq]
        rfl
      · rw [mergeParams, geocodedParams, jsGetLast_append, jsGetLast_append]; rfl
      · rw [mergeParams, geocodedParams, jsGetLast_append, jsGetLast_append]; rfl
      · rw [mergeParams, geocodedParams, jsGetLast_append, jsGetLast_append]; rfl

/-- First geocoding hit used in concrete C9 runs. -/
def geoLondon : GeoResult :=
  { latitude := .num 51.5074, longitude := .num (-0.1278)
    name := "London", country := "United Kingdom" }

/-- Raw JSON-RPC `tools/call` body whose arguments carry the explicit (and
perfectly valid) coordinates `latitude: 0, longitude: 0` *plus* a location. -/
def c9ZeroBody : JValue :=
  .obj [("jsonrpc", .str "2.0"), ("id", .num 9), ("method", .str "tools/call"),
        ("params", .obj [("name", .str "get_weather"),
          ("arguments", .obj [("location", .str "London"),
            ("latitude", .num 0), ("longitude", .num 0)])])]

/-- C9 (counterexample): with explicit coordinates `latitude: 0, longitude: 0`
(the equator / prime meridian intersection) alongside a `location`, the claim
says the Geocoding Pre-Step is skipped — but the source gates on JS
truthiness, `0` is falsy, and the geocoding service *is* invoked (its result
then overrides the supplied coordinates). -/
theorem geocoding_not_skipped_for_zero_coordinates :
    ¬ ((handleMCPRequest (.valid (adaptJsonRpcRequest c9ZeroBody))
          (.ok (some geoLondon)) (.ok (.obj [("latitude", .num 0)])) none
          "T").geocodeCalled = false) := by
  intro h
  rw [show (handleMCPRequest (.valid (adaptJsonRpcRequest c9ZeroBody))
      (.ok (some geoLondon)) (.ok (.obj [("latitude", .num 0)])) none
      "T").geocodeCalled = true from rfl] at h
  exact Bool.noConfusion h

/-- JSON-RPC `tools/call` context with a location *and* nonzero coordinates:
geocoding must be skipped. -/
def c9CoordsCtx : MCPContext :=
  { input := [("endpointName", .str "getWeather"),
              ("queryParams", .obj [("location", .str "London"),
                ("latitude", .num 1), ("longitude", .num 2)])]
    tools := none
    metadata := [("format", .str "jsonrpc")]
    id := .num 4
    method := .str "tools/call" }

/-- JSON-RPC `tools/call` context with only a location: geocoding runs. -/
def c9LocOnlyCtx : MCPContext :=
  { input := [("endpointName", .str "getWeather"),
              ("queryParams", .obj [("location", .str "Atlantis")])]
    tools := none
    metadata := [("format", .str "jsonrpc")]
    id := .num 5
    method := .str "tools/call" }

/-- Witness for C9: with `latitude: 1, longitude: 2` the geocoder is never
consulted, and with only a location a zero-result geocoding lookup yields the
−32602 location-not-found error. -/
theorem geocoding_gating_witness :
    (handleMCPRequest (.valid c9CoordsCtx) (.ok (some geoLondon)) (.ok .null)
        none "T").geocodeCalled = false
    ∧ handleMCPRequest (.valid c9LocOnlyCtx) (.ok none) (.ok .null) none "T"
      = ⟨.response ⟨200, .rpc (.rpcError (.num 5) (-32602)
          "Location \"Atlantis\" not found"
          (.obj [("details", .str "Could not geocode the provided location")]))⟩,
         true, none⟩ := by
  have h1 := (geocoding_gating c9CoordsCtx
      [("location", .str "London"), ("latitude", .num 1), ("longitude", .num 2)]
      (.ok .null) none "T" timeoutError geoLondon rfl rfl rfl).1 (by decide)
      (.ok (some geoLondon)) (.ok none)
  have h2 := (geocoding_gating c9LocOnlyCtx [("location", .str "Atlantis")]
      (.ok .null) none "T" timeoutError geoLondon rfl rfl rfl).2 (by decide)
  exact ⟨h1.2, h2.2.1⟩
